import Mathlib

/-
Verification development for the persona_test repository.

Embedded components:
- src/metrics.py: calculate_persona_generation_metrics, the scoring engine.
- src/model_interface.py: RealModelInterface.generate and its two backends,
  the output sanitizer _clean_json_markdown, and _error_response.

Modelling conventions:
- Python floats are modelled as exact rationals; every numeric literal in the
  scored rubric (0.3, 0.4, 0.5, 1.0, division by counts and by 9) is a small
  dyadic or decimal value on which Python float arithmetic is exact at every
  comparison the code performs, so the rational model is faithful.
- json.loads is treated as an oracle: the scoring function receives
  Option JVal, none standing for a JSONDecodeError, some v for the parsed
  Python value.  JSON numbers are carried as exact rationals.
- A Python exception escaping the scoring function is modelled as
  Except.error with the exception class name; a normal return is Except.ok.
- External effects of the generation adapter (chat template rendering, the
  local pipeline call, the remote stream, tokenizer encoding, wall-clock
  readings) are oracle parameters; an exception raised by a backend call is
  an Except.error oracle value.
-/

/-- Python value universe for the result of json.loads (src/metrics.py line 25).
Objects are association lists with the distinct keys produced by the JSON
parser; lookups take the first matching key. -/
inductive JVal where
  | null
  | bool (b : Bool)
  | intv (n : Int)
  | floatv (q : Rat)
  | str (s : String)
  | arr (xs : List JVal)
  | obj (kvs : List (String × JVal))

mutual

/-- Python equality (==) on parsed JSON values: numbers compare by value
across int/float/bool, containers compare elementwise.  Dict equality is
modelled pairwise in entry order. -/
def JVal.beq : JVal → JVal → Bool
  | .null, .null => true
  | .bool a, .bool b => a == b
  | .bool a, .intv n => (if a then (1 : Int) else 0) == n
  | .bool a, .floatv q => ((if a then (1 : Int) else 0 : Int) : Rat) == q
  | .intv n, .bool b => n == (if b then (1 : Int) else 0)
  | .intv n, .intv m => n == m
  | .intv n, .floatv q => ((n : Rat) == q)
  | .floatv q, .bool b => q == ((if b then (1 : Int) else 0 : Int) : Rat)
  | .floatv q, .intv n => (q == (n : Rat))
  | .floatv p, .floatv q => p == q
  | .str a, .str b => a == b
  | .arr a, .arr b => JVal.beqList a b
  | .obj a, .obj b => JVal.beqObj a b
  | _, _ => false

def JVal.beqList : List JVal → List JVal → Bool
  | [], [] => true
  | x :: xs, y :: ys => JVal.beq x y && JVal.beqList xs ys
  | _, _ => false

def JVal.beqObj : List (String × JVal) → List (String × JVal) → Bool
  | [], [] => true
  | (k, v) :: xs, (k2, v2) :: ys => k == k2 && JVal.beq v v2 && JVal.beqObj xs ys
  | _, _ => false

end

/-- Python truthiness of a parsed JSON value. -/
def pyTruthy : JVal → Bool
  | .null => false
  | .bool b => b
  | .intv n => !(n == 0)
  | .floatv q => !(q == 0)
  | .str s => !s.isEmpty
  | .arr xs => !xs.isEmpty
  | .obj kvs => !kvs.isEmpty

/-- Hexadecimal digit, lowercase, as produced by CPython string escapes. -/
def hexDigit (n : Nat) : Char := if n < 10 then Char.ofNat (48 + n) else Char.ofNat (87 + n)

def hex2 (n : Nat) : String := String.mk [hexDigit (n / 16 % 16), hexDigit (n % 16)]

def hex4 (n : Nat) : String :=
  String.mk [hexDigit (n / 4096 % 16), hexDigit (n / 256 % 16), hexDigit (n / 16 % 16), hexDigit (n % 16)]

/-- Prefix test on character lists (first argument is the pattern). -/
def leadMatch : List Char → List Char → Bool
  | [], _ => true
  | _ :: _, [] => false
  | c :: cs, d :: ds => c == d && leadMatch cs ds

/-- Occurrence test of a pattern inside a character list, scanning left to
right; the empty pattern occurs everywhere (Python substring semantics). -/
def occursIn (pat : List Char) : List Char → Bool
  | [] => leadMatch pat []
  | c :: rest => leadMatch pat (c :: rest) || occursIn pat rest

/-- Python `pat in hay` on strings: literal substring containment. -/
def strContains (hay pat : String) : Bool := occursIn pat.data hay.data

/-- CPython repr of a str: single quotes unless the text holds a single quote
and no double quote; backslash, quote and control characters escaped. -/
def pyReprStr (s : String) : String :=
  let sq : Char := Char.ofNat 39
  let dq : Char := Char.ofNat 34
  let quote : Char := if s.data.contains sq && !(s.data.contains dq) then dq else sq
  let esc : Char → String := fun c =>
    if c == Char.ofNat 92 then "\\\\"
    else if c == quote then "\\" ++ String.singleton quote
    else if c == Char.ofNat 10 then "\\n"
    else if c == Char.ofNat 13 then "\\r"
    else if c == Char.ofNat 9 then "\\t"
    else if c.toNat < 32 || c.toNat == 127 then "\\x" ++ hex2 c.toNat
    else String.singleton c
  String.singleton quote ++ String.join (s.data.map esc) ++ String.singleton quote

/-- Stand-in for CPython repr of a float; JSON floats are carried as exact
rationals, and no scored comparison in the repository depends on the printed
form of a float. -/
def floatRepr (q : Rat) : String :=
  if q.den = 1 then toString q.num ++ ".0" else toString q.num ++ "/" ++ toString q.den

mutual

/-- CPython repr of a parsed JSON value (used inside containers by str()). -/
def pyRepr : JVal → String
  | .null => "None"
  | .bool true => "True"
  | .bool false => "False"
  | .intv n => toString n
  | .floatv q => floatRepr q
  | .str s => pyReprStr s
  | .arr xs => "[" ++ String.intercalate ", " (pyReprList xs) ++ "]"
  | .obj kvs => "\x7b" ++ String.intercalate ", " (pyReprObj kvs) ++ "\x7d"

def pyReprList : List JVal → List String
  | [] => []
  | x :: xs => pyRepr x :: pyReprList xs

def pyReprObj : List (String × JVal) → List String
  | [] => []
  | (k, v) :: rest => (pyReprStr k ++ ": " ++ pyRepr v) :: pyReprObj rest

end

/-- Python str() of a parsed JSON value: identity on strings, repr otherwise. -/
def pyStr : JVal → String
  | .str s => s
  | v => pyRepr v

/-- Python len() on a parsed JSON value; TypeError on unsized values. -/
def pyLen : JVal → Except String Nat
  | .str s => .ok s.length
  | .arr xs => .ok xs.length
  | .obj kvs => .ok kvs.length
  | _ => .error "TypeError"

/-- Python iteration over a parsed JSON value: list elements, string
characters (as one-character strings), dict keys; TypeError otherwise. -/
def pyIter : JVal → Except String (List JVal)
  | .arr xs => .ok xs
  | .str s => .ok (s.data.map (fun c => .str (String.singleton c)))
  | .obj kvs => .ok (kvs.map (fun kv => .str kv.1))
  | _ => .error "TypeError"

/-- Python membership `needle in hay`: substring on strings, element equality
on lists, key membership on dicts; TypeError on non-container values. -/
def pyIn (needle hay : JVal) : Except String Bool :=
  match hay with
  | .str s =>
    match needle with
    | .str a => .ok (strContains s a)
    | _ => .error "TypeError"
  | .arr xs => .ok (xs.any (fun x => JVal.beq needle x))
  | .obj kvs => .ok (kvs.any (fun kv => JVal.beq needle (.str kv.1)))
  | _ => .error "TypeError"

/-- Python subscription hay[key] with a string key: dict lookup; TypeError on
lists and strings (string indices must be integers), as hit by
parsed_output["must_avoid"] in src/metrics.py line 28 when the parsed JSON is
not an object. -/
def pyIndex (j : JVal) (k : String) : Except String JVal :=
  match j with
  | .obj kvs =>
    match kvs.find? (fun kv => kv.1 == k) with
    | some kv => .ok kv.2
    | none => .error "KeyError"
  | _ => .error "TypeError"

/-- dict.get with a default, as used on parsed_output in src/metrics.py
lines 43-46 (only reachable once the parsed value is known to be a dict). -/
def pgetD (kvs : List (String × JVal)) (k : String) (d : JVal) : JVal :=
  match kvs.find? (fun kv => kv.1 == k) with
  | some kv => kv.2
  | none => d

/-- Hashability of a parsed JSON value: lists and dicts are unhashable. -/
def pyHashable : JVal → Bool
  | .arr _ => false
  | .obj _ => false
  | _ => true

/-- Python set() of a parsed JSON value: iterate, then TypeError if any
element is unhashable.  The result keeps the element list; the only use is
the disjointness test, which is insensitive to duplicates. -/
def pySet (j : JVal) : Except String (List JVal) :=
  Except.bind (pyIter j) (fun items =>
    if items.all pyHashable then .ok items else .error "TypeError")

/-- Short-circuiting Python `or` over fallible boolean computations. -/
def pyOrM (x y : Except String Bool) : Except String Bool :=
  Except.bind x (fun b => if b then .ok true else y)

/-- Short-circuiting Python any() over a generator expression. -/
def pyAnyM {α : Type} (f : α → Except String Bool) : List α → Except String Bool
  | [] => .ok false
  | x :: xs => Except.bind (f x) (fun b => if b then .ok true else pyAnyM f xs)

/-- Short-circuiting Python all() over a generator expression. -/
def pyAllM {α : Type} (f : α → Except String Bool) : List α → Except String Bool
  | [] => .ok true
  | x :: xs => Except.bind (f x) (fun b => if b then pyAllM f xs else .ok false)

/-- Python `sum(1 for x in xs if cond(x))`: evaluates the condition on every
element, left to right. -/
def countM {α : Type} (f : α → Except String Bool) : List α → Except String Nat
  | [] => .ok 0
  | x :: xs =>
    Except.bind (f x) (fun b =>
    Except.bind (countM f xs) (fun n => .ok (if b then n + 1 else n)))

/-- Effectful map, left to right, stopping at the first raised exception. -/
def listMapM {α β : Type} (f : α → Except String β) : List α → Except String (List β)
  | [] => .ok []
  | x :: xs =>
    Except.bind (f x) (fun y =>
    Except.bind (listMapM f xs) (fun ys => .ok (y :: ys)))

/-- Whitespace class of Python str.split() and of \s in the strong-negative
regex, restricted to the ASCII whitespace characters. -/
def isPySpace (c : Char) : Bool :=
  c == ' ' || c == Char.ofNat 9 || c == Char.ofNat 10 || c == Char.ofNat 13 ||
  c == Char.ofNat 11 || c == Char.ofNat 12

/-- Accumulating worker for Python str.split() with no argument. -/
def splitWsChars : List Char → List Char → List String
  | acc, [] => if acc.isEmpty then [] else [String.mk acc.reverse]
  | acc, c :: rest =>
    if isPySpace c then
      if acc.isEmpty then splitWsChars [] rest
      else String.mk acc.reverse :: splitWsChars [] rest
    else splitWsChars (c :: acc) rest

/-- Python str.split(): split on whitespace runs, dropping empty pieces. -/
def pySplitWs (s : String) : List String := splitWsChars [] s.data

/-- Match of the regex piece 안\s*됨 at the head of the character list. -/
def anDoemAt : List Char → Bool
  | [] => false
  | c :: rest => c == '안' && leadMatch "됨".data (rest.dropWhile isPySpace)

/-- Match of the strong-negative alternation of src/metrics.py line 206 at
the head of the character list. -/
def strongAt (cs : List Char) : Bool :=
  leadMatch "절대".data cs || anDoemAt cs || leadMatch "불가".data cs ||
  leadMatch "금지".data cs || leadMatch "NO".data cs || leadMatch "안돼".data cs ||
  leadMatch "never".data cs || leadMatch "forbidden".data cs

/-- re.search of the strong-negative pattern: try every start position. -/
def strongSearch : List Char → Bool
  | [] => false
  | c :: rest => strongAt (c :: rest) || strongSearch rest

/-- Whether an extra_text entry is classified strong-negative
(src/metrics.py line 212). -/
def isStrongText (s : String) : Bool := strongSearch s.data

/-- Diner profile record supplied by the test fixture source (input_data in
src/metrics.py; the dict keys read by the code become fields). -/
structure Profile where
  name : String
  gender : String
  age_group : String
  allergies : List String
  preferred_food_categories : List String
  preferred_ingredients : List String
  extra_text : List String

/-- The nine-field score dictionary of src/metrics.py lines 9-19. -/
structure ScoreCard where
  json_schema_compliance : Rat
  field_coverage : Rat
  classification_accuracy : Rat
  reasoning_depth : Rat
  discussion_readiness : Rat
  specificity : Rat
  consistency : Rat
  extra_text_parsing : Rat
  overall_score : Rat

/-- Initial score values of src/metrics.py lines 9-19: all 0.0 except
consistency = 1.0 and extra_text_parsing = 1.0. -/
def defaultScores : ScoreCard := ⟨0, 0, 0, 0, 0, 0, 1, 1, 0⟩

/-- sum(scores.values()) over the nine dictionary entries. -/
def scoreSum (c : ScoreCard) : Rat :=
  c.json_schema_compliance + c.field_coverage + c.classification_accuracy +
  c.reasoning_depth + c.discussion_readiness + c.specificity + c.consistency +
  c.extra_text_parsing + c.overall_score

/-- Final score assembly: the eight computed sub-scores, then
overall_score = sum(scores.values()) / len(scores) taken while overall_score
still holds its initial 0.0 (src/metrics.py line 234). -/
def mkScoreCard (js fc ca rd dr sp cons etp : Rat) : ScoreCard :=
  let base : ScoreCard := ⟨js, fc, ca, rd, dr, sp, cons, etp, 0⟩
  ⟨js, fc, ca, rd, dr, sp, cons, etp, scoreSum base / 9⟩

/-- covered/applicable ratio with the 1.0 default on an empty check list,
shared shape of stages 2, 3 and 6 of src/metrics.py. -/
def ratioScore (vs : List Bool) : Rat :=
  if vs.isEmpty then 1 else ((vs.count true : Nat) : Rat) / ((vs.length : Nat) : Rat)

/-- Stage 2 verdict list (src/metrics.py lines 49-91): one boolean per
non-empty profile field, true when some element of the field appears in the
stringified output field or in persona_prompt. -/
def coverageVerdicts (allergies cats ingrs extra : List String) (pp ma pref : JVal) :
    Except String (List Bool) :=
  Except.bind
    (if allergies.isEmpty then .ok [] else
      (pyAnyM (fun a => pyOrM (.ok (strContains (pyStr ma) a)) (pyIn (.str a) pp)) allergies).map
        (fun b => [b])) (fun v1 =>
  Except.bind
    (if cats.isEmpty then .ok [] else
      (pyAnyM (fun c => pyOrM (.ok (strContains (pyStr pref) c)) (pyIn (.str c) pp)) cats).map
        (fun b => [b])) (fun v2 =>
  Except.bind
    (if ingrs.isEmpty then .ok [] else
      (pyAnyM (fun i => pyOrM (.ok (strContains (pyStr pref) i)) (pyIn (.str i) pp)) ingrs).map
        (fun b => [b])) (fun v3 =>
  Except.bind
    (if extra.isEmpty then .ok [] else
      (pyAnyM (fun t =>
        pyOrM (.ok (strContains (pyStr ma) t))
          (pyOrM (.ok (strContains (pyStr pref) t)) (pyIn (.str t) pp))) extra).map
        (fun b => [b])) (fun v4 =>
  .ok (v1 ++ v2 ++ v3 ++ v4)))))

/-- Stage 2 field coverage score (src/metrics.py line 89). -/
def fieldCoverage (allergies cats ingrs extra : List String) (pp ma pref : JVal) :
    Except String Rat :=
  (coverageVerdicts allergies cats ingrs extra pp ma pref).map ratioScore

/-- Stage 3 verdict list (src/metrics.py lines 94-109): one boolean per
allergy (containment in some must_avoid entry) and per preference item
(containment in some preferred entry). -/
def classifyVerdicts (allergies cats ingrs : List String) (ma pref : JVal) :
    Except String (List Bool) :=
  Except.bind
    (listMapM (fun a =>
      Except.bind (pyIter ma) (fun items => pyAnyM (fun it => pyIn (.str a) it) items)) allergies)
    (fun v1 =>
  Except.bind
    (listMapM (fun x =>
      Except.bind (pyIter pref) (fun items => pyAnyM (fun it => pyIn (.str x) it) items))
      (cats ++ ingrs)) (fun v2 =>
  .ok (v1 ++ v2)))

/-- Stage 3 classification accuracy score (src/metrics.py line 111). -/
def classificationAccuracy (allergies cats ingrs : List String) (ma pref : JVal) :
    Except String Rat :=
  (classifyVerdicts allergies cats ingrs ma pref).map ratioScore

/-- Causal-marker word list of src/metrics.py lines 121-133. -/
def causalWords : List String :=
  ["왜냐하면", "따라서", "고려하여", "때문에", "분류", "because", "due to", "considering"]

/-- Stage 4 reasoning depth (src/metrics.py lines 117-142): additive 0.3 for
length at least 50, 0.3 for a causal marker, 0.4 for naming the
must_avoid/preferred distinction, capped at 1.0. -/
def reasoningDepth (reas : JVal) : Except String Rat :=
  Except.bind (pyLen reas) (fun n =>
  Except.bind (pyAnyM (fun w => pyIn (.str w) reas) causalWords) (fun b2 =>
  Except.bind
    (pyOrM (pyIn (.str "must_avoid") reas)
      (pyOrM (pyIn (.str "preferred") reas)
        (pyOrM (pyIn (.str "제약") reas) (pyIn (.str "선호") reas)))) (fun b3 =>
  .ok (min ((if 50 ≤ n then (3 : Rat)/10 else 0) + (if b2 then (3 : Rat)/10 else 0) +
      (if b3 then (4 : Rat)/10 else 0)) 1))))

/-- Role-framing word list of src/metrics.py line 148. -/
def roleWords : List String := ["당신은", "You are", "토론", "discussion", "role", "참여", "역할"]

/-- Hard-refusal word list of src/metrics.py line 153. -/
def hardWords : List String := ["절대", "안 됨", "못 먹", "allerg", "never", "cannot"]

/-- Negotiation word list of src/metrics.py line 160. -/
def negoWords : List String := ["협의", "가능", "선호", "prefer", "negotiab", "조율"]

/-- Stage 5 discussion readiness (src/metrics.py lines 144-165): 0.3 for
role framing, 0.3 when must_avoid is truthy and hard-refusal language is
present or must_avoid is falsy, 0.4 likewise for preferred with negotiation
language, capped at 1.0. -/
def discussionReadiness (pp ma pref : JVal) : Except String Rat :=
  Except.bind (pyAnyM (fun w => pyIn (.str w) pp) roleWords) (fun b1 =>
  Except.bind
    (if pyTruthy ma then
      (pyAnyM (fun w => pyIn (.str w) pp) hardWords).map (fun b => if b then (3 : Rat)/10 else 0)
    else .ok ((3 : Rat)/10)) (fun r2 =>
  Except.bind
    (if pyTruthy pref then
      (pyAnyM (fun w => pyIn (.str w) pp) negoWords).map (fun b => if b then (4 : Rat)/10 else 0)
    else .ok ((4 : Rat)/10)) (fun r3 =>
  .ok (min ((if b1 then (3 : Rat)/10 else 0) + r2 + r3) 1))))

/-- Stage 6 specificity (src/metrics.py lines 167-189): check (i) more than
half of all combined keywords appear across persona_prompt and the
stringified must_avoid/preferred; check (ii) the profile name appears in
persona_prompt; each check applicable only when its precondition holds. -/
def specificityScore (name : String) (allergies cats ingrs : List String) (pp ma pref : JVal) :
    Except String Rat :=
  let all_keywords := allergies ++ cats ++ ingrs
  Except.bind
    (if all_keywords.isEmpty then .ok [] else
      (countM (fun k =>
        pyOrM (pyIn (.str k) pp)
          (.ok (strContains (pyStr ma) k || strContains (pyStr pref) k))) all_keywords).map
        (fun found =>
          [decide ((1 : Rat)/2 < ((found : Nat) : Rat) / ((all_keywords.length : Nat) : Rat))]))
    (fun v1 =>
  Except.bind (if name.isEmpty then .ok [] else (pyIn (.str name) pp).map (fun b => [b]))
    (fun v2 =>
  .ok (ratioScore (v1 ++ v2))))

/-- Stage 7 consistency (src/metrics.py lines 191-200): 1.0 minus 0.5 when
set(must_avoid) and set(preferred) intersect, minus 0.5 per allergy literally
contained in some preferred entry, floored at 0.0. -/
def consistencyScore (allergies : List String) (ma pref : JVal) : Except String Rat :=
  Except.bind (pySet ma) (fun setA =>
  Except.bind (pySet pref) (fun setP =>
  Except.bind
    (countM (fun a =>
      Except.bind (pyIter pref) (fun items => pyAnyM (fun it => pyIn (.str a) it) items))
      allergies) (fun cnt =>
  .ok (max (1 - ((if setA.any (fun x => setP.any (fun y => JVal.beq x y)) then (1 : Rat)/2 else 0) +
      ((cnt : Nat) : Rat) * ((1 : Rat)/2))) 0))))

/-- Stage 8 extra-text parsing (src/metrics.py lines 202-232): over the
strong-negative extra_text entries only, the fraction whose whitespace tokens
longer than one character reach the stringified must_avoid list; 1.0 when no
entry or no strong entry exists.  This stage operates on profile strings and
str(must_avoid) only and cannot raise. -/
def extraTextParsing (extra : List String) (ma : JVal) : Rat :=
  if extra.isEmpty then 1
  else
    let strongs := extra.filter isStrongText
    if strongs.isEmpty then 1
    else
      (((strongs.filter (fun t =>
          (pySplitWs t).any (fun w => decide (1 < w.length) && strContains (pyStr ma) w))).length
        : Nat) : Rat) / ((strongs.length : Nat) : Rat)

/-- Required output keys of src/metrics.py line 26. -/
def requiredKeys : List String := ["persona_prompt", "must_avoid", "preferred", "reasoning"]

/-- Is the parsed value a Python list. -/
def isList : JVal → Bool
  | .arr _ => true
  | _ => false

/-- Schema score of src/metrics.py lines 28-35, evaluated once all four
required keys are present: 1.0 when parsed_output["must_avoid"] and
parsed_output["preferred"] are both lists, else 0.5; the second subscription
is skipped when the first is not a list, and subscription itself raises
TypeError when the parsed value is a list or string. -/
def schemaTypeScore (j : JVal) : Except String Rat :=
  Except.bind (pyIndex j "must_avoid") (fun maV =>
  Except.bind (if isList maV then (pyIndex j "preferred").map isList else .ok false) (fun both =>
  .ok (if both then (1 : Rat) else (1 : Rat)/2)))

/-- Stages 2 through 8 plus the overall score (src/metrics.py lines 43-235),
run on the entries of the parsed JSON object with the already-computed
schema-compliance score. -/
def stagesBtoI (name : String) (allergies cats ingrs extra : List String)
    (kvs : List (String × JVal)) (schemaScore : Rat) : Except String ScoreCard :=
  let pp := pgetD kvs "persona_prompt" (.str "")
  let ma := pgetD kvs "must_avoid" (.arr [])
  let pref := pgetD kvs "preferred" (.arr [])
  let reas := pgetD kvs "reasoning" (.str "")
  Except.bind (fieldCoverage allergies cats ingrs extra pp ma pref) (fun fc =>
  Except.bind (classificationAccuracy allergies cats ingrs ma pref) (fun ca =>
  Except.bind (reasoningDepth reas) (fun rd =>
  Except.bind (discussionReadiness pp ma pref) (fun dr =>
  Except.bind (specificityScore name allergies cats ingrs pp ma pref) (fun sp =>
  Except.bind (consistencyScore allergies ma pref) (fun cons =>
  .ok (mkScoreCard schemaScore fc ca rd dr sp cons (extraTextParsing extra ma))))))))

/-- Scoring core over the profile fields the code reads.  none models a
JSONDecodeError from json.loads (early return with the default scores);
some j continues with the key-membership check of line 27, whose `in` test
raises TypeError on non-container values, then the schema typing of
lines 28-35, the early return of lines 40-41 when the compliance score is
still 0.0, and stages 2 through 8. -/
def calcCore (name : String) (allergies cats ingrs extra : List String) (parsed : Option JVal) :
    Except String ScoreCard :=
  match parsed with
  | none => .ok defaultScores
  | some j =>
    Except.bind (pyAllM (fun k => pyIn (.str k) j) requiredKeys) (fun allPresent =>
      if allPresent then
        Except.bind (schemaTypeScore j) (fun schemaScore =>
          match j with
          | .obj kvs => stagesBtoI name allergies cats ingrs extra kvs schemaScore
          | _ => .error "TypeError")
      else .ok defaultScores)

/-- calculate_persona_generation_metrics of src/metrics.py: the scoring
engine mapping (profile, parse outcome of the output text) to a ScoreCard,
or to a raised exception. -/
def calculate_persona_generation_metrics (input_data : Profile) (parsed : Option JVal) :
    Except String ScoreCard :=
  calcCore input_data.name input_data.allergies input_data.preferred_food_categories
    input_data.preferred_ingredients input_data.extra_text parsed

/-- First-occurrence splitter: scan for the pattern, returning the text
before it and the text after it. -/
def splitOnFirstAux (pat : List Char) : List Char → Option (List Char × List Char)
  | [] => if pat.isEmpty then some ([], []) else none
  | c :: rest =>
    if leadMatch pat (c :: rest) then some ([], (c :: rest).drop pat.length)
    else (splitOnFirstAux pat rest).map (fun ab => (c :: ab.1, ab.2))

def splitOnFirst (pat s : String) : Option (String × String) :=
  (splitOnFirstAux pat.data s.data).map (fun ab => (String.mk ab.1, String.mk ab.2))

/-- _clean_json_markdown of src/model_interface.py lines 185-190: the output
sanitizer.  re.search of the non-greedy DOTALL pattern finds the leftmost
fenced block labeled json with the shortest body; on a match the trimmed
group is returned, otherwise all fence markers are removed and the text
trimmed. -/
def clean_json_markdown (text : String) : String :=
  match splitOnFirst "```json" text with
  | some pr =>
    match splitOnFirst "```" pr.2 with
    | some pr2 => pr2.1.trim
    | none => (text.replace "```" "").trim
  | none => (text.replace "```" "").trim

/-- One generation result record of src/model_interface.py. -/
structure GenerationResult where
  text : String
  ttft : Rat
  latency : Rat
  input_tokens : Nat
  output_tokens : Nat

/-- json.dumps of a single string with the default ensure_ascii=True:
quote, backslash and control escapes, non-ASCII as \uXXXX with surrogate
pairs beyond the basic plane. -/
def jsonEscapeChar (c : Char) : String :=
  if c == Char.ofNat 34 then "\\\""
  else if c == Char.ofNat 92 then "\\\\"
  else if c == Char.ofNat 10 then "\\n"
  else if c == Char.ofNat 13 then "\\r"
  else if c == Char.ofNat 9 then "\\t"
  else if c == Char.ofNat 8 then "\\b"
  else if c == Char.ofNat 12 then "\\f"
  else if c.toNat < 32 then "\\u" ++ hex4 c.toNat
  else if c.toNat < 127 then String.singleton c
  else if c.toNat ≤ 65535 then "\\u" ++ hex4 c.toNat
  else
    "\\u" ++ hex4 (55296 + (c.toNat - 65536) / 1024) ++
    "\\u" ++ hex4 (56320 + (c.toNat - 65536) % 1024)

def jsonDumpString (s : String) : String :=
  "\"" ++ String.join (s.data.map jsonEscapeChar) ++ "\""

/-- Text of json.dumps with the single-entry error dict of
src/model_interface.py line 194. -/
def errorEnvelopeText (msg : String) : String :=
  "\x7b\"error\": " ++ jsonDumpString msg ++ "\x7d"

/-- _error_response of src/model_interface.py lines 192-199. -/
def error_response (error_msg : String) : GenerationResult :=
  ⟨errorEnvelopeText error_msg, 0, 0, 0, 0⟩

/-- _generate_local of src/model_interface.py lines 72-118.  The chat
template rendering and the pipeline call are oracles; a raised template
exception falls back to the fixed linear prompt, a raised pipeline exception
becomes the error envelope.  encode is the tokenizer length oracle; t0 and
t1 are the wall-clock readings around the pipeline call. -/
def generate_local (system_prompt user_content : String) (templateResult : Except String String)
    (pipeOutcome : Except String String) (encode : String → Nat) (t0 t1 : Rat) :
    GenerationResult :=
  let prompt_text :=
    match templateResult with
    | .ok s => s
    | .error _ => "System: " ++ system_prompt ++ "\nUser: " ++ user_content ++ "\nAssistant:"
  match pipeOutcome with
  | .error e => error_response e
  | .ok response_text =>
    ⟨clean_json_markdown response_text, 0, t1 - t0, encode prompt_text, encode response_text⟩

/-- Server-reported token usage of a streamed chunk. -/
structure Usage where
  prompt_tokens : Nat
  completion_tokens : Nat

/-- One streamed chunk: the delta content of the first choice when present,
and the optional usage payload of the final chunk. -/
structure Chunk where
  content : Option String
  usage : Option Usage

/-- Truthiness of chunk.choices and chunk.choices[0].delta.content: a chunk
contributes content only when the delta text is present and non-empty. -/
def chunkContentful (c : Chunk) : Bool :=
  match c.content with
  | some s => !s.isEmpty
  | none => false

/-- Concatenation of the collected content deltas
(src/model_interface.py lines 141-161). -/
def collectedText (chunks : List Chunk) : String :=
  String.join (chunks.filterMap (fun c => if chunkContentful c then c.content else none))

/-- Last truthy usage payload seen while draining the stream
(src/model_interface.py lines 157-159). -/
def lastUsage (chunks : List Chunk) : Option Usage :=
  chunks.foldl (fun acc c => match c.usage with | some u => some u | none => acc) none

/-- _generate_api of src/model_interface.py lines 120-183.  The whole
streaming interaction is one oracle: an exception anywhere in the try block
becomes the error envelope.  eFirst is the elapsed time at the first
contentful delta, ePost the elapsed time at the post-loop fallback check,
eFinal the elapsed time at result construction. -/
def generate_api (system_prompt user_content : String)
    (streamOutcome : Except String (List Chunk)) (eFirst ePost eFinal : Rat) :
    GenerationResult :=
  match streamOutcome with
  | .error e => error_response e
  | .ok chunks =>
    let response_text := collectedText chunks
    let ttft1 : Rat := if chunks.any chunkContentful then eFirst else 0
    let ttft : Rat := if ttft1 == 0 then ePost else ttft1
    match lastUsage chunks with
    | some u =>
      ⟨clean_json_markdown response_text, ttft, eFinal, u.prompt_tokens, u.completion_tokens⟩
    | none =>
      ⟨clean_json_markdown response_text, ttft, eFinal,
        (system_prompt ++ user_content).length / 4, response_text.length / 4⟩

/-- Backend selection fixed at adapter construction, with the oracle inputs
of the chosen backend for one generate() call. -/
inductive BackendCall where
  | localBackend (templateResult : Except String String) (pipeOutcome : Except String String)
      (encode : String → Nat) (t0 t1 : Rat)
  | apiBackend (streamOutcome : Except String (List Chunk)) (eFirst ePost eFinal : Rat)

/-- generate of src/model_interface.py lines 59-70: dispatch to the backend
the adapter was built with. -/
def generate (system_prompt user_content : String) : BackendCall → GenerationResult
  | .localBackend tr po enc t0 t1 => generate_local system_prompt user_content tr po enc t0 t1
  | .apiBackend so e1 e2 e3 => generate_api system_prompt user_content so e1 e2 e3

/-- The backtick character. -/
def bqChar : Char := Char.ofNat 96

/-- Empty profile used as a concrete scoring input. -/
def profileZero : Profile := ⟨"", "", "", [], [], [], []⟩

/-- Parse result of the error-envelope text produced by _error_response. -/
def envelopeObj : JVal := .obj [("error", .str "boom")]

/-- Parse result of a second error-envelope text. -/
def envelopeObj2 : JVal := .obj [("error", .str "boom2")]

/-- Parsed object holding all four required keys with must_avoid not
sequence-typed. -/
def wrongTypeKvs : List (String × JVal) :=
  [("persona_prompt", .str ""), ("must_avoid", .str "x"),
   ("preferred", .arr []), ("reasoning", .str "")]

/-- One-chunk stream with forty characters of content and no usage data. -/
def chunksNoUsage : List Chunk :=
  [⟨some "0123456789012345678901234567890123456789", none⟩]

/-- One-chunk stream carrying a server usage report. -/
def chunksWithUsage : List Chunk := [⟨some "ab", some ⟨7, 3⟩⟩]

/-- Profile differing from profileB only in gender and age_group. -/
def profileA : Profile := ⟨"kim", "F", "30s", ["peanut"], ["Korean"], [], ["매운 음식 절대 안됨"]⟩

/-- Profile differing from profileA only in gender and age_group. -/
def profileB : Profile := ⟨"kim", "M", "20s", ["peanut"], ["Korean"], [], ["매운 음식 절대 안됨"]⟩

/-- Inversion of a successful Except.bind. -/
lemma bind_ok {A B : Type} {x : Except String A} {f : A → Except String B} {b : B}
    (h : Except.bind x f = .ok b) : ∃ a, x = .ok a ∧ f a = .ok b := by
  cases x with
  | error e => simp [Except.bind] at h
  | ok a => exact ⟨a, rfl, h⟩

/-- Inversion of a successful Except.map. -/
lemma map_ok {A B : Type} {x : Except String A} {f : A → B} {b : B}
    (h : Except.map f x = .ok b) : ∃ a, x = .ok a ∧ f a = b := by
  cases x with
  | error e => simp [Except.map] at h
  | ok a =>
    refine ⟨a, rfl, ?_⟩
    simpa [Except.map] using h

lemma ratioScore_nonneg (vs : List Bool) : 0 ≤ ratioScore vs := by
  unfold ratioScore
  split
  · norm_num
  · positivity

lemma ratioScore_le_one (vs : List Bool) : ratioScore vs ≤ 1 := by
  unfold ratioScore
  split
  · norm_num
  · rename_i h
    have hlen : 0 < vs.length := by
      cases vs with
      | nil => simp at h
      | cons a t => simp
    rw [div_le_one (by exact_mod_cast hlen)]
    exact_mod_cast List.count_le_length _ _

lemma fieldCoverage_bounds {al cats ingrs extra : List String} {pp ma pref : JVal} {q : Rat}
    (h : fieldCoverage al cats ingrs extra pp ma pref = .ok q) : 0 ≤ q ∧ q ≤ 1 := by
  unfold fieldCoverage at h
  obtain ⟨vs, _, hq⟩ := map_ok h
  exact hq ▸ ⟨ratioScore_nonneg vs, ratioScore_le_one vs⟩

lemma classificationAccuracy_bounds {al cats ingrs : List String} {ma pref : JVal} {q : Rat}
    (h : classificationAccuracy al cats ingrs ma pref = .ok q) : 0 ≤ q ∧ q ≤ 1 := by
  unfold classificationAccuracy at h
  obtain ⟨vs, _, hq⟩ := map_ok h
  exact hq ▸ ⟨ratioScore_nonneg vs, ratioScore_le_one vs⟩

lemma reasoningDepth_bounds {reas : JVal} {q : Rat}
    (h : reasoningDepth reas = .ok q) : 0 ≤ q ∧ q ≤ 1 := by
  unfold reasoningDepth at h
  obtain ⟨n, _, h⟩ := bind_ok h
  obtain ⟨b2, _, h⟩ := bind_ok h
  obtain ⟨b3, _, h⟩ := bind_ok h
  injection h with h
  subst h
  constructor
  · refine le_min ?_ (by norm_num)
    have c1 : (0 : Rat) ≤ (if 50 ≤ n then (3 : Rat)/10 else 0) := by split <;> norm_num
    have c2 : (0 : Rat) ≤ (if b2 then (3 : Rat)/10 else 0) := by split <;> norm_num
    have c3 : (0 : Rat) ≤ (if b3 then (4 : Rat)/10 else 0) := by split <;> norm_num
    linarith
  · exact min_le_right _ _

lemma discussionReadiness_bounds {pp ma pref : JVal} {q : Rat}
    (h : discussionReadiness pp ma pref = .ok q) : 0 ≤ q ∧ q ≤ 1 := by
  unfold discussionReadiness at h
  obtain ⟨b1, _, h⟩ := bind_ok h
  obtain ⟨r2, h2, h⟩ := bind_ok h
  obtain ⟨r3, h3, h⟩ := bind_ok h
  injection h with h
  subst h
  have hr2 : 0 ≤ r2 := by
    split at h2
    · obtain ⟨b, _, hb⟩ := map_ok h2
      subst hb
      split <;> norm_num
    · injection h2 with h2
      rw [← h2]
      norm_num
  have hr3 : 0 ≤ r3 := by
    split at h3
    · obtain ⟨b, _, hb⟩ := map_ok h3
      subst hb
      split <;> norm_num
    · injection h3 with h3
      rw [← h3]
      norm_num
  constructor
  · refine le_min ?_ (by norm_num)
    have c1 : (0 : Rat) ≤ (if b1 then (3 : Rat)/10 else 0) := by split <;> norm_num
    linarith
  · exact min_le_right _ _

lemma specificityScore_bounds {name : String} {al cats ingrs : List String} {pp ma pref : JVal}
    {q : Rat} (h : specificityScore name al cats ingrs pp ma pref = .ok q) : 0 ≤ q ∧ q ≤ 1 := by
  unfold specificityScore at h
  obtain ⟨v1, _, h⟩ := bind_ok h
  obtain ⟨v2, _, h⟩ := bind_ok h
  injection h with h
  subst h
  exact ⟨ratioScore_nonneg _, ratioScore_le_one _⟩

lemma consistencyScore_bounds {al : List String} {ma pref : JVal} {q : Rat}
    (h : consistencyScore al ma pref = .ok q) : 0 ≤ q ∧ q ≤ 1 := by
  unfold consistencyScore at h
  obtain ⟨setA, _, h⟩ := bind_ok h
  obtain ⟨setP, _, h⟩ := bind_ok h
  obtain ⟨cnt, _, h⟩ := bind_ok h
  injection h with h
  subst h
  constructor
  · exact le_max_right _ _
  · refine max_le ?_ (by norm_num)
    have c1 : (0 : Rat) ≤
        (if setA.any (fun x => setP.any (fun y => JVal.beq x y)) then (1 : Rat)/2 else 0) := by
      split <;> norm_num
    have c2 : (0 : Rat) ≤ ((cnt : Nat) : Rat) * ((1 : Rat)/2) := by positivity
    linarith

lemma extraTextParsing_bounds (extra : List String) (ma : JVal) :
    0 ≤ extraTextParsing extra ma ∧ extraTextParsing extra ma ≤ 1 := by
  unfold extraTextParsing
  split
  · norm_num
  · dsimp only
    split
    · norm_num
    · rename_i h1 h2
      constructor
      · positivity
      · rw [div_le_one]
        · exact_mod_cast List.length_filter_le _ _
        · have hlen : 0 < (extra.filter isStrongText).length := by
            cases hfe : extra.filter isStrongText with
            | nil => rw [hfe] at h2; simp at h2
            | cons a t => simp
          exact_mod_cast hlen

lemma schemaTypeScore_cases {j : JVal} {s : Rat} (h : schemaTypeScore j = .ok s) :
    s = 1 ∨ s = (1 : Rat)/2 := by
  unfold schemaTypeScore at h
  obtain ⟨maV, _, h⟩ := bind_ok h
  obtain ⟨both, _, h⟩ := bind_ok h
  injection h with h
  subst h
  cases both
  · right; rfl
  · left; rfl

/-- The nine fields produced by the final score assembly. -/
lemma mkScoreCard_eta (js fc ca rd dr sp cons etp : Rat) :
    mkScoreCard js fc ca rd dr sp cons etp =
      ⟨js, fc, ca, rd, dr, sp, cons, etp, (js + fc + ca + rd + dr + sp + cons + etp + 0) / 9⟩ :=
  rfl

/-- Successful runs of stages 2-8 decompose into the individual stage
results, and the returned card is their assembly. -/
lemma stagesBtoI_ok {name : String} {al cats ingrs extra : List String}
    {kvs : List (String × JVal)} {s : Rat} {card : ScoreCard}
    (h : stagesBtoI name al cats ingrs extra kvs s = .ok card) :
    ∃ fc ca rd dr sp cons,
      fieldCoverage al cats ingrs extra (pgetD kvs "persona_prompt" (.str ""))
        (pgetD kvs "must_avoid" (.arr [])) (pgetD kvs "preferred" (.arr [])) = .ok fc ∧
      classificationAccuracy al cats ingrs (pgetD kvs "must_avoid" (.arr []))
        (pgetD kvs "preferred" (.arr [])) = .ok ca ∧
      reasoningDepth (pgetD kvs "reasoning" (.str "")) = .ok rd ∧
      discussionReadiness (pgetD kvs "persona_prompt" (.str ""))
        (pgetD kvs "must_avoid" (.arr [])) (pgetD kvs "preferred" (.arr [])) = .ok dr ∧
      specificityScore name al cats ingrs (pgetD kvs "persona_prompt" (.str ""))
        (pgetD kvs "must_avoid" (.arr [])) (pgetD kvs "preferred" (.arr [])) = .ok sp ∧
      consistencyScore al (pgetD kvs "must_avoid" (.arr []))
        (pgetD kvs "preferred" (.arr [])) = .ok cons ∧
      card = mkScoreCard s fc ca rd dr sp cons
        (extraTextParsing extra (pgetD kvs "must_avoid" (.arr []))) := by
  unfold stagesBtoI at h
  obtain ⟨fc, h1, h⟩ := bind_ok h
  obtain ⟨ca, h2, h⟩ := bind_ok h
  obtain ⟨rd, h3, h⟩ := bind_ok h
  obtain ⟨dr, h4, h⟩ := bind_ok h
  obtain ⟨sp, h5, h⟩ := bind_ok h
  obtain ⟨cons, h6, h⟩ := bind_ok h
  injection h with h
  exact ⟨fc, ca, rd, dr, sp, cons, h1, h2, h3, h4, h5, h6, h.symm⟩

/-- A successful scoring run either took one of the two early returns (with
the default scores) or ran all stages on a parsed object with a schema score
of 1.0 or 0.5. -/
lemma calcCore_ok_cases {name : String} {al cats ingrs extra : List String}
    {parsed : Option JVal} {card : ScoreCard}
    (h : calcCore name al cats ingrs extra parsed = .ok card) :
    card = defaultScores ∨
      ∃ kvs s, (s = 1 ∨ s = (1 : Rat)/2) ∧
        stagesBtoI name al cats ingrs extra kvs s = .ok card := by
  cases parsed with
  | none =>
    left
    unfold calcCore at h
    injection h with h
    exact h.symm
  | some j =>
    unfold calcCore at h
    obtain ⟨allP, hall, h⟩ := bind_ok h
    cases allP with
    | false =>
      left
      simp at h
      exact h.symm
    | true =>
      rw [if_pos rfl] at h
      obtain ⟨s, hs, h⟩ := bind_ok h
      cases j with
      | obj kvs => exact Or.inr ⟨kvs, s, schemaTypeScore_cases hs, h⟩
      | null => simp at h
      | bool b => simp at h
      | intv n => simp at h
      | floatv q => simp at h
      | str s2 => simp at h
      | arr xs => simp at h

lemma leadMatch_append (p r : List Char) : leadMatch p (p ++ r) = true := by
  induction p with
  | nil => rfl
  | cons c cs ih => simp [leadMatch, ih]

lemma splitAux_nil (pat : List Char) :
    splitOnFirstAux pat [] = if pat.isEmpty then some ([], []) else none := rfl

lemma splitAux_cons (pat : List Char) (c : Char) (rest : List Char) :
    splitOnFirstAux pat (c :: rest) =
      if leadMatch pat (c :: rest) then some ([], (c :: rest).drop pat.length)
      else (splitOnFirstAux pat rest).map (fun ab => (c :: ab.1, ab.2)) := rfl

lemma splitAux_boundary (pat rest : List Char) (h : ¬ pat.isEmpty = true) :
    splitOnFirstAux pat (pat ++ rest) = some ([], rest) := by
  cases pat with
  | nil => simp at h
  | cons p0 ps =>
    rw [List.cons_append, splitAux_cons, ← List.cons_append, leadMatch_append]
    simp [List.drop_left]

lemma splitAux_skip (p0 : Char) (ps pre rest : List Char) (h : p0 ∉ pre) :
    splitOnFirstAux (p0 :: ps) (pre ++ rest) =
      (splitOnFirstAux (p0 :: ps) rest).map (fun ab => (pre ++ ab.1, ab.2)) := by
  induction pre with
  | nil =>
    simp only [List.nil_append]
    cases splitOnFirstAux (p0 :: ps) rest <;> simp
  | cons c t ih =>
    have hpc : (p0 == c) = false := by
      cases hb : p0 == c
      · rfl
      · have he : p0 = c := by simpa using hb
        exact absurd (List.mem_cons.2 (Or.inl he)) h
    have hlm : leadMatch (p0 :: ps) (c :: (t ++ rest)) = false := by
      simp [leadMatch, hpc]
    rw [List.cons_append, splitAux_cons, hlm]
    simp only [Bool.false_eq_true, if_false]
    rw [ih (fun hm => h (List.mem_cons_of_mem c hm))]
    cases splitOnFirstAux (p0 :: ps) rest <;> simp

lemma splitAux_none_iff (pat l : List Char) :
    splitOnFirstAux pat l = none ↔ occursIn pat l = false := by
  induction l with
  | nil =>
    rw [splitAux_nil]
    cases pat <;> simp [occursIn, leadMatch]
  | cons c t ih =>
    rw [splitAux_cons]
    cases hl : leadMatch pat (c :: t)
    · simp only [Bool.false_eq_true, if_false, occursIn, hl, Bool.false_or]
      rw [← ih]
      cases splitOnFirstAux pat t <;> simp
    · simp [occursIn, hl]

lemma not_mem_of_single_occursIn {c : Char} {l : List Char} (h : occursIn [c] l = false) :
    c ∉ l := by
  induction l with
  | nil => simp
  | cons d t ih =>
    have h2 : ((c == d) || occursIn [c] t) = false := by
      have h3 := h
      simp only [occursIn, leadMatch, Bool.and_true] at h3
      exact h3
    rw [Bool.or_eq_false_iff] at h2
    intro hm
    rcases List.mem_cons.1 hm with he | hm2
    · rw [he] at h2
      simp at h2
    · exact ih h2.2 hm2

lemma mkData (l : List Char) : (String.mk l).data = l := rfl

lemma clean_fenced (pre inner post : String)
    (h1 : strContains pre "`" = false) (h2 : strContains inner "`" = false) :
    clean_json_markdown (pre ++ "```json" ++ inner ++ "```" ++ post) = inner.trim := by
  have hpre : bqChar ∉ pre.data :=
    not_mem_of_single_occursIn (show occursIn [bqChar] pre.data = false from h1)
  have hinner : bqChar ∉ inner.data :=
    not_mem_of_single_occursIn (show occursIn [bqChar] inner.data = false from h2)
  have hdata : (pre ++ "```json" ++ inner ++ "```" ++ post).data =
      pre.data ++ ((bqChar :: "``json".data) ++ (inner.data ++ ((bqChar :: "``".data) ++ post.data))) := by
    simp only [String.data_append, List.append_assoc]
    rfl
  have e1 : splitOnFirst "```json" (pre ++ "```json" ++ inner ++ "```" ++ post) =
      some (String.mk pre.data, String.mk (inner.data ++ ((bqChar :: "``".data) ++ post.data))) := by
    unfold splitOnFirst
    rw [hdata]
    rw [show ("```json".data : List Char) = bqChar :: "``json".data from rfl]
    rw [splitAux_skip bqChar "``json".data pre.data _ hpre]
    rw [splitAux_boundary (bqChar :: "``json".data) _ (by simp)]
    simp
  have e2 : splitOnFirst "```" (String.mk (inner.data ++ ((bqChar :: "``".data) ++ post.data))) =
      some (String.mk inner.data, String.mk post.data) := by
    unfold splitOnFirst
    rw [mkData]
    rw [show ("```".data : List Char) = bqChar :: "``".data from rfl]
    rw [splitAux_skip bqChar "``".data inner.data _ hinner]
    rw [splitAux_boundary (bqChar :: "``".data) _ (by simp)]
    simp
  unfold clean_json_markdown
  simp only [e1, e2]

lemma clean_no_fence (text : String) (h : strContains text "```json" = false) :
    clean_json_markdown text = (text.replace "```" "").trim := by
  have hn : splitOnFirst "```json" text = none := by
    unfold splitOnFirst
    rw [(splitAux_none_iff _ _).2 (show occursIn "```json".data text.data = false from h)]
    rfl
  unfold clean_json_markdown
  rw [hn]

lemma clean_no_closer (text : String) (pr : String × String)
    (hm : splitOnFirst "```json" text = some pr) (h3 : strContains pr.2 "```" = false) :
    clean_json_markdown text = (text.replace "```" "").trim := by
  have hn : splitOnFirst "```" pr.2 = none := by
    unfold splitOnFirst
    rw [(splitAux_none_iff _ _).2 (show occursIn "```".data pr.2.data = false from h3)]
    rfl
  unfold clean_json_markdown
  rw [hm]
  simp only [hn]

lemma foldl_keep (chunks : List Chunk) (acc : Option Usage)
    (h : chunks.all (fun ch => ch.usage.isNone) = true) :
    chunks.foldl (fun a c => match c.usage with | some u => some u | none => a) acc = acc := by
  induction chunks generalizing acc with
  | nil => rfl
  | cons c t ih =>
    rw [List.all_cons, Bool.and_eq_true] at h
    obtain ⟨h1, h2⟩ := h
    simp only [List.foldl_cons]
    cases hc : c.usage with
    | some u => rw [hc] at h1; simp at h1
    | none =>
      simp only [hc]
      exact ih _ h2

/-- Claim C1 counterexample: scoring the parsed error envelope, which is
valid JSON without the four required keys, yields json_schema_compliance
0.0 with the default card, not the 0.5 the claim states. -/
theorem claim1_missing_keys_not_half :
    calculate_persona_generation_metrics profileZero (some envelopeObj) = .ok defaultScores ∧
    defaultScores.json_schema_compliance ≠ (1 : Rat)/2 :=
  ⟨rfl, by norm_num [defaultScores]⟩

/-- Claim C1 (amended): for every profile and every parsed JSON value on
which the required-key membership test evaluates to false, scoring returns
immediately with json_schema_compliance = 0.0 and every other field at its
default (0.0 except consistency = 1.0 and extra_text_parsing = 1.0). -/
theorem claim1_missing_keys_default_card (p : Profile) (j : JVal)
    (h : pyAllM (fun k => pyIn (.str k) j) requiredKeys = .ok false) :
    calculate_persona_generation_metrics p (some j) = .ok defaultScores := by
  simp only [calculate_persona_generation_metrics, calcCore]
  rw [h]
  rfl

theorem claim1_missing_keys_default_card_witness :
    calculate_persona_generation_metrics profileZero (some envelopeObj2) = .ok defaultScores :=
  claim1_missing_keys_default_card profileZero envelopeObj2 rfl

/-- Claim C2 counterexample: with all four keys present and must_avoid a
string, scoring does not return immediately with the defaults: on the empty
profile the returned field_coverage is 1.0, not its 0.0 default. -/
theorem claim2_wrong_type_not_early_return :
    (calculate_persona_generation_metrics profileZero (some (.obj wrongTypeKvs))).map
      (fun c => c.field_coverage) = .ok 1 ∧ (1 : Rat) ≠ 0 :=
  ⟨rfl, by norm_num⟩

/-- Claim C2 (amended): when the parsed object has all four required keys
and the must_avoid/preferred typing check yields the 0.5 score, scoring sets
json_schema_compliance = 0.5 and continues into stages (b) through (i)
rather than returning early: the result is exactly the full stage pipeline
run with schema score 0.5, and any card it produces carries
json_schema_compliance = 0.5. -/
theorem claim2_wrong_type_half_and_continues (p : Profile) (kvs : List (String × JVal))
    (h1 : pyAllM (fun k => pyIn (.str k) (JVal.obj kvs)) requiredKeys = .ok true)
    (h2 : schemaTypeScore (.obj kvs) = .ok ((1 : Rat)/2)) :
    calculate_persona_generation_metrics p (some (.obj kvs)) =
      stagesBtoI p.name p.allergies p.preferred_food_categories p.preferred_ingredients
        p.extra_text kvs ((1 : Rat)/2) ∧
    (∀ card, stagesBtoI p.name p.allergies p.preferred_food_categories p.preferred_ingredients
        p.extra_text kvs ((1 : Rat)/2) = .ok card →
      card.json_schema_compliance = (1 : Rat)/2) := by
  constructor
  · have e1 : calculate_persona_generation_metrics p (some (.obj kvs)) =
        Except.bind (schemaTypeScore (JVal.obj kvs))
          (fun s => stagesBtoI p.name p.allergies p.preferred_food_categories
            p.preferred_ingredients p.extra_text kvs s) := by
      simp only [calculate_persona_generation_metrics, calcCore]
      rw [h1]
      rfl
    rw [e1, h2]
    rfl
  · intro card hc
    obtain ⟨fc, ca, rd, dr, sp, cons, _, _, _, _, _, _, hcard⟩ := stagesBtoI_ok hc
    rw [hcard]
    rfl

theorem claim2_wrong_type_half_and_continues_witness :
    calculate_persona_generation_metrics profileZero (some (.obj wrongTypeKvs)) =
      stagesBtoI profileZero.name profileZero.allergies profileZero.preferred_food_categories
        profileZero.preferred_ingredients profileZero.extra_text wrongTypeKvs ((1 : Rat)/2) :=
  (claim2_wrong_type_half_and_continues profileZero wrongTypeKvs rfl rfl).1

/-- Claim C3: the output text 42 is valid JSON, yet the membership test
`"persona_prompt" in parsed_output` on the parsed integer raises TypeError,
so the scoring function raises instead of returning a ScoreCard. -/
theorem claim3_scoring_raises_typeerror_on_int_json (p : Profile) :
    calculate_persona_generation_metrics p (some (.intv 42)) = .error "TypeError" := rfl

/-- Claim C4 counterexample: the early-return card of a parse failure has
overall_score = 0.0, which differs from the sum of its other eight fields
divided by nine (2/9). -/
theorem claim4_overall_not_ninth_on_parse_failure :
    calculate_persona_generation_metrics profileZero none = .ok defaultScores ∧
    defaultScores.overall_score ≠
      (defaultScores.json_schema_compliance + defaultScores.field_coverage +
       defaultScores.classification_accuracy + defaultScores.reasoning_depth +
       defaultScores.discussion_readiness + defaultScores.specificity +
       defaultScores.consistency + defaultScores.extra_text_parsing) / 9 :=
  ⟨rfl, by norm_num [defaultScores]⟩

/-- Claim C4 (amended): every returned ScoreCard has
overall_score ∈ [0, 8/9]; the card produced when all stages run satisfies
overall_score = (sum of the other eight fields) / 9, while an early-return
card is the default card with overall_score = 0.0. -/
theorem claim4_overall_formula_amended (p : Profile) (parsed : Option JVal) (card : ScoreCard)
    (h : calculate_persona_generation_metrics p parsed = .ok card) :
    (card.overall_score =
        (card.json_schema_compliance + card.field_coverage + card.classification_accuracy +
         card.reasoning_depth + card.discussion_readiness + card.specificity +
         card.consistency + card.extra_text_parsing) / 9
      ∨ card = defaultScores) ∧
    0 ≤ card.overall_score ∧ card.overall_score ≤ 8/9 := by
  unfold calculate_persona_generation_metrics at h
  rcases calcCore_ok_cases h with hd | ⟨kvs, s, hs, hst⟩
  · subst hd
    refine ⟨Or.inr rfl, ?_, ?_⟩ <;> norm_num [defaultScores]
  · obtain ⟨fc, ca, rd, dr, sp, cons, hfc, hca, hrd, hdr, hsp, hcons, hcard⟩ := stagesBtoI_ok hst
    subst hcard
    have Bs : 0 ≤ s ∧ s ≤ 1 := by rcases hs with rfl | rfl <;> norm_num
    have Bfc := fieldCoverage_bounds hfc
    have Bca := classificationAccuracy_bounds hca
    have Brd := reasoningDepth_bounds hrd
    have Bdr := discussionReadiness_bounds hdr
    have Bsp := specificityScore_bounds hsp
    have Bcons := consistencyScore_bounds hcons
    have Betp := extraTextParsing_bounds (p.extra_text) (pgetD kvs "must_avoid" (.arr []))
    rw [mkScoreCard_eta]
    refine ⟨Or.inl ?_, ?_, ?_⟩
    · show (s + fc + ca + rd + dr + sp + cons +
          extraTextParsing p.extra_text (pgetD kvs "must_avoid" (.arr [])) + 0) / 9 = _
      ring_nf
    · show (0 : Rat) ≤ (s + fc + ca + rd + dr + sp + cons +
          extraTextParsing p.extra_text (pgetD kvs "must_avoid" (.arr [])) + 0) / 9
      have := Bs.1
      have := Bfc.1
      have := Bca.1
      have := Brd.1
      have := Bdr.1
      have := Bsp.1
      have := Bcons.1
      have := Betp.1
      positivity
    · show (s + fc + ca + rd + dr + sp + cons +
          extraTextParsing p.extra_text (pgetD kvs "must_avoid" (.arr [])) + 0) / 9 ≤ 8/9
      have h8 : s + fc + ca + rd + dr + sp + cons +
          extraTextParsing p.extra_text (pgetD kvs "must_avoid" (.arr [])) + 0 ≤ 8 := by
        have := Bs.2
        have := Bfc.2
        have := Bca.2
        have := Brd.2
        have := Bdr.2
        have := Bsp.2
        have := Bcons.2
        have := Betp.2
        linarith
      linarith

theorem claim4_overall_formula_amended_witness :
    (defaultScores.overall_score =
        (defaultScores.json_schema_compliance + defaultScores.field_coverage +
         defaultScores.classification_accuracy + defaultScores.reasoning_depth +
         defaultScores.discussion_readiness + defaultScores.specificity +
         defaultScores.consistency + defaultScores.extra_text_parsing) / 9
      ∨ defaultScores = defaultScores) ∧
    0 ≤ defaultScores.overall_score ∧ defaultScores.overall_score ≤ 8/9 :=
  claim4_overall_formula_amended profileZero none defaultScores rfl

/-- Claim C5: on a JSON parse failure the scoring function returns
immediately with json_schema_compliance = 0.0, consistency = 1.0,
extra_text_parsing = 1.0 and every other field 0.0. -/
theorem claim5_parse_failure_default_card (p : Profile) :
    calculate_persona_generation_metrics p none = .ok ⟨0, 0, 0, 0, 0, 0, 1, 1, 0⟩ := rfl

/-- Claim C6: for either backend, a raised backend exception is converted
into the standard error envelope: text is the JSON object with the single
error key, ttft = 0, latency = 0, and both token counts 0; generate never
propagates the exception. -/
theorem claim6_backend_exception_error_envelope (system_prompt user_content msg : String)
    (templateResult : Except String String) (encode : String → Nat) (t0 t1 e1 e2 e3 : Rat) :
    generate system_prompt user_content
      (.localBackend templateResult (.error msg) encode t0 t1) = error_response msg ∧
    generate system_prompt user_content (.apiBackend (.error msg) e1 e2 e3) =
      error_response msg ∧
    error_response msg = ⟨errorEnvelopeText msg, 0, 0, 0, 0⟩ :=
  ⟨rfl, rfl, rfl⟩

/-- Claim C7: the sanitizer returns exactly the trimmed body of the first
fenced json block when one exists (here stated for a block whose prefix and
body are backtick-free, which pins down the first match); with no fenced
json opener, or with an opener but no closing fence after it, it returns the
input with all fence markers removed and trimmed. -/
theorem claim7_sanitizer_fenced_block :
    (∀ pre inner post : String, strContains pre "`" = false → strContains inner "`" = false →
      clean_json_markdown (pre ++ "```json" ++ inner ++ "```" ++ post) = inner.trim) ∧
    (∀ text : String, strContains text "```json" = false →
      clean_json_markdown text = (text.replace "```" "").trim) ∧
    (∀ text : String, ∀ pr : String × String, splitOnFirst "```json" text = some pr →
      strContains pr.2 "```" = false →
      clean_json_markdown text = (text.replace "```" "").trim) :=
  ⟨clean_fenced, clean_no_fence, clean_no_closer⟩

theorem claim7_sanitizer_fenced_block_witness :
    clean_json_markdown ("a" ++ "```json" ++ " hi " ++ "```" ++ "b") = " hi ".trim ∧
    clean_json_markdown "plain text" = ("plain text".replace "```" "").trim ∧
    clean_json_markdown "```json no closer" = ("```json no closer".replace "```" "").trim :=
  ⟨claim7_sanitizer_fenced_block.1 "a" " hi " "b" rfl rfl,
   claim7_sanitizer_fenced_block.2.1 "plain text" rfl,
   claim7_sanitizer_fenced_block.2.2 "```json no closer" ("", " no closer") rfl rfl⟩

/-- Claim C8: in the remote streaming backend, when no chunk reports usage
the token counts are the quarter-length heuristic over the serialized prompt
and the collected response text; when usage is reported, the last reported
prompt/completion counts are used verbatim. -/
theorem claim8_remote_token_accounting (system_prompt user_content : String)
    (chunks : List Chunk) (e1 e2 e3 : Rat) :
    (chunks.all (fun ch => ch.usage.isNone) = true →
      (generate_api system_prompt user_content (.ok chunks) e1 e2 e3).input_tokens =
        (system_prompt.length + user_content.length) / 4 ∧
      (generate_api system_prompt user_content (.ok chunks) e1 e2 e3).output_tokens =
        (collectedText chunks).length / 4) ∧
    (∀ u : Usage, lastUsage chunks = some u →
      (generate_api system_prompt user_content (.ok chunks) e1 e2 e3).input_tokens =
        u.prompt_tokens ∧
      (generate_api system_prompt user_content (.ok chunks) e1 e2 e3).output_tokens =
        u.completion_tokens) := by
  constructor
  · intro h
    have hl : lastUsage chunks = none := foldl_keep chunks none h
    simp only [generate_api, hl]
    simp [String.length_append]
  · intro u hu
    simp only [generate_api, hu]
    simp

theorem claim8_remote_token_accounting_witness :
    ((generate_api "sys" "user" (.ok chunksNoUsage) 0 0 0).input_tokens =
        ("sys".length + "user".length) / 4 ∧
      (generate_api "sys" "user" (.ok chunksNoUsage) 0 0 0).output_tokens =
        (collectedText chunksNoUsage).length / 4) ∧
    (collectedText chunksNoUsage).length / 4 = 10 ∧
    ((generate_api "sys" "user" (.ok chunksWithUsage) 0 0 0).input_tokens = 7 ∧
      (generate_api "sys" "user" (.ok chunksWithUsage) 0 0 0).output_tokens = 3) :=
  ⟨(claim8_remote_token_accounting "sys" "user" chunksNoUsage 0 0 0).1 rfl, rfl,
   (claim8_remote_token_accounting "sys" "user" chunksWithUsage 0 0 0).2 ⟨7, 3⟩ rfl⟩

/-- Claim C9: every ScoreCard the scoring function returns has each of the
eight base sub-scores inside the closed unit interval. -/
theorem claim9_base_subscores_unit_interval (p : Profile) (parsed : Option JVal)
    (card : ScoreCard) (h : calculate_persona_generation_metrics p parsed = .ok card) :
    (0 ≤ card.json_schema_compliance ∧ card.json_schema_compliance ≤ 1) ∧
    (0 ≤ card.field_coverage ∧ card.field_coverage ≤ 1) ∧
    (0 ≤ card.classification_accuracy ∧ card.classification_accuracy ≤ 1) ∧
    (0 ≤ card.reasoning_depth ∧ card.reasoning_depth ≤ 1) ∧
    (0 ≤ card.discussion_readiness ∧ card.discussion_readiness ≤ 1) ∧
    (0 ≤ card.specificity ∧ card.specificity ≤ 1) ∧
    (0 ≤ card.consistency ∧ card.consistency ≤ 1) ∧
    (0 ≤ card.extra_text_parsing ∧ card.extra_text_parsing ≤ 1) := by
  unfold calculate_persona_generation_metrics at h
  rcases calcCore_ok_cases h with hd | ⟨kvs, s, hs, hst⟩
  · subst hd
    refine ⟨⟨?_, ?_⟩, ⟨?_, ?_⟩, ⟨?_, ?_⟩, ⟨?_, ?_⟩, ⟨?_, ?_⟩, ⟨?_, ?_⟩, ⟨?_, ?_⟩, ⟨?_, ?_⟩⟩ <;>
      norm_num [defaultScores]
  · obtain ⟨fc, ca, rd, dr, sp, cons, hfc, hca, hrd, hdr, hsp, hcons, hcard⟩ := stagesBtoI_ok hst
    subst hcard
    have Bs : 0 ≤ s ∧ s ≤ 1 := by rcases hs with rfl | rfl <;> norm_num
    exact ⟨Bs, fieldCoverage_bounds hfc, classificationAccuracy_bounds hca,
      reasoningDepth_bounds hrd, discussionReadiness_bounds hdr, specificityScore_bounds hsp,
      consistencyScore_bounds hcons,
      extraTextParsing_bounds p.extra_text (pgetD kvs "must_avoid" (.arr []))⟩

theorem claim9_base_subscores_unit_interval_witness :
    (0 ≤ defaultScores.json_schema_compliance ∧ defaultScores.json_schema_compliance ≤ 1) ∧
    (0 ≤ defaultScores.field_coverage ∧ defaultScores.field_coverage ≤ 1) ∧
    (0 ≤ defaultScores.classification_accuracy ∧ defaultScores.classification_accuracy ≤ 1) ∧
    (0 ≤ defaultScores.reasoning_depth ∧ defaultScores.reasoning_depth ≤ 1) ∧
    (0 ≤ defaultScores.discussion_readiness ∧ defaultScores.discussion_readiness ≤ 1) ∧
    (0 ≤ defaultScores.specificity ∧ defaultScores.specificity ≤ 1) ∧
    (0 ≤ defaultScores.consistency ∧ defaultScores.consistency ≤ 1) ∧
    (0 ≤ defaultScores.extra_text_parsing ∧ defaultScores.extra_text_parsing ≤ 1) :=
  claim9_base_subscores_unit_interval profileZero none defaultScores rfl

/-- Claim C10: the scoring function never reads gender or age_group: two
profiles agreeing on name, allergies, preferred food categories, preferred
ingredients and extra_text receive identical ScoreCards on every output. -/
theorem claim10_scoring_ignores_gender_age (p1 p2 : Profile) (parsed : Option JVal)
    (h1 : p1.name = p2.name) (h2 : p1.allergies = p2.allergies)
    (h3 : p1.preferred_food_categories = p2.preferred_food_categories)
    (h4 : p1.preferred_ingredients = p2.preferred_ingredients)
    (h5 : p1.extra_text = p2.extra_text) :
    calculate_persona_generation_metrics p1 parsed =
      calculate_persona_generation_metrics p2 parsed := by
  unfold calculate_persona_generation_metrics
  rw [h1, h2, h3, h4, h5]

theorem claim10_scoring_ignores_gender_age_witness :
    calculate_persona_generation_metrics profileA (some envelopeObj) =
      calculate_persona_generation_metrics profileB (some envelopeObj) :=
  claim10_scoring_ignores_gender_age profileA profileB (some envelopeObj) rfl rfl rfl rfl rfl
